import Mathlib

/-!
Shallow embedding of the cuesheetgo CUE-sheet parser (final revision of the
library) and proofs about its specification claims.

Strings are modelled as Lean `String`s (sequences of Unicode code points,
matching Go's rune-level reading of the input), Go `int` values as `Int`,
and `time.Duration` as an `Int` count of nanoseconds.  Fallible Go
functions returning `error` are modelled with `Except String`; functions
that can additionally panic (out-of-bounds slice indexing) return a
`GoResult` with an explicit `crash` constructor carrying the runtime error
text.  The bufio scanner's maximum-token-size limit is not modelled (lines
of any length are scanned).
-/

namespace cuesheetgo

/-- Whitespace test matching Go's `unicode.IsSpace` (the code points it
accepts), used by `strings.Fields`. -/
def goIsSpace (c : Char) : Bool :=
  c == ' ' || c == '\t' || c == '\n' || c == '\x0b' || c == '\x0c' || c == '\r' ||
  c.toNat == 0x85 || c.toNat == 0xA0 || c.toNat == 0x1680 ||
  (0x2000 ≤ c.toNat && c.toNat ≤ 0x200A) ||
  c.toNat == 0x2028 || c.toNat == 0x2029 || c.toNat == 0x202F ||
  c.toNat == 0x205F || c.toNat == 0x3000

/-- Membership in `trimChars`: space, double quote, tab, newline. -/
def isTrimChar (c : Char) : Bool :=
  c == ' ' || c == '"' || c == '\t' || c == '\n'

/-- `strings.Trim(s, trimChars)` on a character list. -/
def goTrimList (l : List Char) : List Char :=
  ((l.dropWhile isTrimChar).reverse.dropWhile isTrimChar).reverse

/-- `strings.Trim(s, trimChars)`. -/
def goTrim (s : String) : String :=
  String.mk (goTrimList s.data)

/-- Accumulating worker for `strings.Fields`. -/
def fieldsAux : List Char → List Char → List (List Char)
  | [], cur => if cur.isEmpty then [] else [cur.reverse]
  | c :: rest, cur =>
    if goIsSpace c then
      if cur.isEmpty then fieldsAux rest [] else cur.reverse :: fieldsAux rest []
    else fieldsAux rest (c :: cur)

/-- `strings.Fields`: split around runs of whitespace, no empty fields. -/
def goFields (s : String) : List String :=
  (fieldsAux s.data []).map String.mk

/-- Split a character list at every newline (keeping empty pieces). -/
def splitNL : List Char → List (List Char)
  | [] => [[]]
  | c :: rest =>
    if c = '\n' then [] :: splitNL rest
    else
      match splitNL rest with
      | [] => [[c]]
      | p :: ps => (c :: p) :: ps

/-- `bufio.ScanLines` drops one carriage return at the end of a line. -/
def dropCR (l : List Char) : List Char :=
  if l.getLast? = some '\r' then l.dropLast else l

/-- The sequence of lines a `bufio.Scanner` with `ScanLines` yields for the
given input: pieces between newlines, without a trailing empty piece, each
stripped of a final carriage return. -/
def goLines (l : List Char) : List String :=
  let ps := splitNL l
  let ps := if ps.getLast? = some [] then ps.dropLast else ps
  ps.map (fun p => String.mk (dropCR p))

/-- `strings.ToUpper` (per-character uppercasing). -/
def goToUpper (s : String) : String :=
  String.mk (s.data.map Char.toUpper)

/-- Hexadecimal digit character for `0 ≤ n < 16`. -/
def hexDigit (n : Nat) : Char :=
  if n < 10 then Char.ofNat (48 + n) else Char.ofNat (87 + n)

/-- Escaping of one character inside a Go `%q` double-quoted literal. -/
def escChar (c : Char) : List Char :=
  if c = '"' then ['\\', '"']
  else if c = '\\' then ['\\', '\\']
  else if c = '\n' then ['\\', 'n']
  else if c = '\t' then ['\\', 't']
  else if c = '\r' then ['\\', 'r']
  else if c.toNat < 32 then ['\\', 'x', hexDigit (c.toNat / 16), hexDigit (c.toNat % 16)]
  else [c]

/-- Go `%q` formatting of a string (double-quoted, escaped). -/
def goQuote (s : String) : String :=
  String.mk ('"' :: (s.data.flatMap escChar ++ ['"']))

/-- Decimal value of a digit run (most significant first). -/
def digitsToNatAux (acc : Nat) : List Char → Nat
  | [] => acc
  | c :: r => digitsToNatAux (acc * 10 + (c.toNat - 48)) r

/-- `strconv.Atoi`: optional sign, then decimal digits only; 64-bit range. -/
def goAtoi (s : String) : Except String Int :=
  match s.data with
  | [] => .error ("strconv.Atoi: parsing " ++ goQuote s ++ ": invalid syntax")
  | c :: rest =>
    let digits := if c = '-' ∨ c = '+' then rest else c :: rest
    if digits = [] ∨ ¬ digits.all Char.isDigit then
      .error ("strconv.Atoi: parsing " ++ goQuote s ++ ": invalid syntax")
    else
      let n := digitsToNatAux 0 digits
      if (c ≠ '-' ∧ n > 9223372036854775807) ∨ (c = '-' ∧ n > 9223372036854775808) then
        .error ("strconv.Atoi: parsing " ++ goQuote s ++ ": value out of range")
      else
        .ok (if c = '-' then -(n : Int) else (n : Int))

/-- Numeric value of a decimal digit character. -/
def charVal (c : Char) : Nat := c.toNat - 48

/-- One `%2d` verb of Go's `fmt.Sscanf`: an optional sign and then decimal
digits, consuming at most two characters in total (so a sign leaves room
for a single digit), scanned greedily.  Returns the signed value and the
unconsumed remainder. -/
def scanSignedMax2 : List Char → Except String (Int × List Char)
  | [] => .error "unexpected EOF"
  | c :: rest =>
    if c = '-' ∨ c = '+' then
      match rest with
      | [] => .error "expected integer"
      | d :: rest2 =>
        if d.isDigit then
          .ok (if c = '-' then -(charVal d : Int) else (charVal d : Int), rest2)
        else .error "expected integer"
    else if c.isDigit then
      match rest with
      | [] => .ok ((charVal c : Int), [])
      | d :: rest2 =>
        if d.isDigit then .ok ((10 * charVal c + charVal d : Int), rest2)
        else .ok ((charVal c : Int), d :: rest2)
    else .error "expected integer"

/-- A literal `:` in an `fmt.Sscanf` format string must match exactly. -/
def expectColon : List Char → Except String (List Char)
  | [] => .error "unexpected EOF"
  | c :: rest => if c = ':' then .ok rest else .error "input does not match format"

/-- `fmt.Sscanf(s, "%2d:%2d:%2d", &minutes, &seconds, &frames)`: three
width-limited signed decimal fields separated by literal colons; input
after the third field is left unconsumed without error. -/
def goScanMSF (s : String) : Except String (Int × Int × Int) :=
  match scanSignedMax2 s.data with
  | .error e => .error e
  | .ok (m, r1) =>
    match expectColon r1 with
    | .error e => .error e
    | .ok r2 =>
      match scanSignedMax2 r2 with
      | .error e => .error e
      | .ok (sec, r3) =>
        match expectColon r3 with
        | .error e => .error e
        | .ok r4 =>
          match scanSignedMax2 r4 with
          | .error e => .error e
          | .ok (f, _) => .ok (m, sec, f)

/-- `fmtFrac` of Go's `time.Duration.String`: the fractional digits of `u`
below `10 ^ prec` with trailing zeros omitted, preceded by a decimal point
when non-empty; also returns `u / 10 ^ prec`. -/
def fmtFracAux : Nat → Nat → Bool → List Char → List Char × Nat
  | 0, u, show_, acc => (if show_ then '.' :: acc else acc, u)
  | p + 1, u, show_, acc =>
    let digit := u % 10
    let show2 := show_ || digit ≠ 0
    fmtFracAux p (u / 10) show2 (if show2 then Char.ofNat (48 + digit) :: acc else acc)

/-- Go's `time.Duration.String` on a nanosecond count. -/
def goDurationString (d : Int) : String :=
  let u := d.natAbs
  let sign := if d < 0 then "-" else ""
  if u < 1000000000 then
    if u = 0 then "0s"
    else
      let pu : Nat × String :=
        if u < 1000 then (0, "ns")
        else if u < 1000000 then (3, "µs")
        else (6, "ms")
      let fr := fmtFracAux pu.1 u false []
      sign ++ toString fr.2 ++ String.mk fr.1 ++ pu.2
  else
    let fr := fmtFracAux 9 u false []
    let u1 := fr.2
    let secs := toString (u1 % 60) ++ String.mk fr.1 ++ "s"
    let u2 := u1 / 60
    let mins :=
      if u2 > 0 then
        (if u2 / 60 > 0 then toString (u2 / 60) ++ "h" else "") ++ toString (u2 % 60) ++ "m"
      else ""
    sign ++ mins ++ secs

/-- A command descriptor: name plus an exact or minimum parameter count
(zero meaning "no such constraint"). -/
structure Command where
  Name : String
  ExactParams : Nat
  MinParams : Nat
deriving DecidableEq

def FileCommand : Command := { Name := "FILE", ExactParams := 2, MinParams := 0 }

def PerformerCommand : Command := { Name := "PERFORMER", ExactParams := 0, MinParams := 1 }

def TitleCommand : Command := { Name := "TITLE", ExactParams := 0, MinParams := 1 }

def TrackCommand : Command := { Name := "TRACK", ExactParams := 2, MinParams := 0 }

def TrackIndexCommand : Command := { Name := "INDEX", ExactParams := 2, MinParams := 0 }

def RemCommand : Command := { Name := "REM", ExactParams := 0, MinParams := 1 }

def RemGenreCommand : Command := { Name := "GENRE", ExactParams := 0, MinParams := 1 }

def RemDateCommand : Command := { Name := "DATE", ExactParams := 0, MinParams := 1 }

/-- An INDEX 01 point: frame count and timestamp (`time.Duration`, in
nanoseconds). -/
structure IndexPoint where
  Frame : Int
  Timestamp : Int
deriving DecidableEq

def zeroIndexPoint : IndexPoint := { Frame := 0, Timestamp := 0 }

/-- Go `%v` rendering of an `IndexPoint` struct value. -/
def renderIndexPoint (p : IndexPoint) : String :=
  "\x7b" ++ toString p.Frame ++ " " ++ goDurationString p.Timestamp ++ "\x7d"

/-- A single track of a cue sheet (`Typ` models the Go field `Type`). -/
structure Track where
  Title : String
  Typ : String
  Index01 : IndexPoint
deriving DecidableEq

/-- The in-progress/parsed cue sheet document. -/
structure CueSheet where
  AlbumPerformer : String
  AlbumTitle : String
  Date : String
  Format : String
  FileName : String
  Genre : String
  Tracks : List Track
deriving DecidableEq

/-- `&CueSheet{Tracks: []*Track{}}`: the zero document Parse starts from. -/
def initialCueSheet : CueSheet :=
  { AlbumPerformer := "", AlbumTitle := "", Date := "", Format := "", FileName := "",
    Genre := "", Tracks := [] }

/-- Outcome of running Go code that may return a value, return an error,
or panic (runtime error). -/
inductive GoResult (α : Type) where
  | ok : α → GoResult α
  | err : String → GoResult α
  | crash : String → GoResult α
deriving DecidableEq

/-- Lift an error-returning computation into `GoResult`. -/
def liftE : Except String CueSheet → GoResult CueSheet
  | .ok c => .ok c
  | .error e => .err e

/-- `(cmd *Command) validateParameters(parameters int) error`. -/
def Command.validateParameters (cmd : Command) (parameters : Nat) : Except String Unit :=
  if cmd.ExactParams > 0 ∧ parameters ≠ cmd.ExactParams then
    .error ("expected " ++ toString cmd.ExactParams ++ " parameters, got " ++ toString parameters)
  else if cmd.MinParams > 0 ∧ parameters < cmd.MinParams then
    .error ("expected at least " ++ toString cmd.MinParams ++ " parameters, got " ++
      toString parameters)
  else .ok ()

/-- `assignValue[T comparable](val T, field *T) error`: succeed (with the
new field value) only when the field still holds the type's zero value;
`render` is Go's `%v` formatting used in the failure message. -/
def assignValue {α : Type} [DecidableEq α] (zero : α) (render : α → String)
    (val : α) (field : α) : Except String α :=
  if field ≠ zero then .error ("field already set: " ++ render field)
  else .ok val

/-- `parseString(val string, field *string) error`. -/
def parseString (val : String) (field : String) : Except String String :=
  assignValue "" (fun s => s) (goTrim val) field

/-- `strings.Join(parameters, " ")`. -/
def strJoinSpace (l : List String) : String := String.intercalate " " l

/-- `(c *CueSheet) parseFile(parameters []string) error` (format assigned
before file name, as in the source). -/
def parseFile (c : CueSheet) (parameters : List String) : Except String CueSheet :=
  match FileCommand.validateParameters parameters.length with
  | .error e => .error ("invalid FILE parameters: " ++ e)
  | .ok _ =>
    match parseString (parameters.getD (parameters.length - 1) "") c.Format with
    | .error e => .error ("error parsing FILE format: " ++ e)
    | .ok fmt =>
      match parseString (strJoinSpace (parameters.take (parameters.length - 1))) c.FileName with
      | .error e => .error ("error parsing FILE name: " ++ e)
      | .ok name => .ok { c with Format := fmt, FileName := name }

/-- `(c *CueSheet) parsePerformer(parameters []string) error`. -/
def parsePerformer (c : CueSheet) (parameters : List String) : Except String CueSheet :=
  match PerformerCommand.validateParameters parameters.length with
  | .error e => .error ("invalid PERFORMER parameters: " ++ e)
  | .ok _ =>
    match parseString (strJoinSpace parameters) c.AlbumPerformer with
    | .error e => .error ("error parsing PERFORMER parameters: " ++ e)
    | .ok v => .ok { c with AlbumPerformer := v }

def maxTracks : Nat := 99

/-- `(c *CueSheet) isNextTrack(nr string) error`: the mismatch check runs
before the 99-track ceiling check, as in the source. -/
def isNextTrack (c : CueSheet) (nr : String) : Except String Unit :=
  match goAtoi nr with
  | .error e => .error ("failed to parse track number: " ++ e)
  | .ok trackNr =>
    if trackNr ≠ (c.Tracks.length : Int) + 1 then
      .error ("expected track number " ++ toString ((c.Tracks.length : Int) + 1) ++
        ", got " ++ toString trackNr)
    else if trackNr > (maxTracks : Int) then
      .error ("cannot have more than " ++ toString maxTracks ++ " tracks")
    else .ok ()

/-- `(c *CueSheet) parseTrack(parameters []string) error`: a fresh zero
track's type is assigned through `parseString`, then the track appended. -/
def parseTrack (c : CueSheet) (parameters : List String) : Except String CueSheet :=
  match TrackCommand.validateParameters parameters.length with
  | .error e => .error ("invalid TRACK parameters: " ++ e)
  | .ok _ =>
    match isNextTrack c (parameters.getD 0 "") with
    | .error e => .error ("invalid track number: " ++ e)
    | .ok _ =>
      match parseString (parameters.getD 1 "") "" with
      | .error e => .error ("error parsing track type: " ++ e)
      | .ok t =>
        .ok { c with Tracks := c.Tracks ++ [{ Title := "", Typ := t, Index01 := zeroIndexPoint }] }

/-- `(c *CueSheet) parseTrackIndex01(parameters []string) error`; accessing
the last track of an empty track list is the source's
`c.Tracks[len(c.Tracks)-1]` panic. -/
def parseTrackIndex01 (c : CueSheet) (parameters : List String) : GoResult CueSheet :=
  match TrackIndexCommand.validateParameters parameters.length with
  | .error e => .err ("invalid TRACK INDEX parameters: " ++ e)
  | .ok _ =>
    match goAtoi (parameters.getD 0 "") with
    | .error e => .err ("failed to parse index number: " ++ e)
    | .ok indexNr =>
      if indexNr ≠ 1 then .err ("expected index number 1, got " ++ toString indexNr)
      else
        match goScanMSF (parameters.getD 1 "") with
        | .error e => .err ("error parsing timestamp and frame: " ++ e)
        | .ok (minutes, seconds, frames) =>
          match c.Tracks.getLast? with
          | none => .crash "runtime error: index out of range [-1]"
          | some lastTrack =>
            match assignValue zeroIndexPoint renderIndexPoint
                { Frame := frames, Timestamp := minutes * 60000000000 + seconds * 1000000000 }
                lastTrack.Index01 with
            | .error e => .err e
            | .ok v => .ok { c with Tracks := c.Tracks.dropLast ++ [{ lastTrack with Index01 := v }] }

/-- `(c *CueSheet) parseTitle(parameters []string) error`: album title when
no track exists yet, otherwise the most recent track's title. -/
def parseTitle (c : CueSheet) (parameters : List String) : Except String CueSheet :=
  match TitleCommand.validateParameters parameters.length with
  | .error e => .error ("invalid TITLE parameters: " ++ e)
  | .ok _ =>
    match c.Tracks.getLast? with
    | none =>
      match parseString (strJoinSpace parameters) c.AlbumTitle with
      | .error e => .error ("error parsing album TITLE: " ++ e)
      | .ok v => .ok { c with AlbumTitle := v }
    | some currentTrack =>
      match parseString (strJoinSpace parameters) currentTrack.Title with
      | .error e => .error ("error parsing track " ++ toString (c.Tracks.length - 1) ++
          " TITLE: " ++ e)
      | .ok v => .ok { c with Tracks := c.Tracks.dropLast ++ [{ currentTrack with Title := v }] }

/-- `(c *CueSheet) parseGenre(parameters []string) error`. -/
def parseGenre (c : CueSheet) (parameters : List String) : Except String CueSheet :=
  match RemGenreCommand.validateParameters parameters.length with
  | .error e => .error ("invalid REM GENRE parameters: " ++ e)
  | .ok _ =>
    match parseString (strJoinSpace parameters) c.Genre with
    | .error e => .error ("error parsing REM GENRE parameters: " ++ e)
    | .ok v => .ok { c with Genre := v }

/-- `(c *CueSheet) parseDate(parameters []string) error`. -/
def parseDate (c : CueSheet) (parameters : List String) : Except String CueSheet :=
  match RemDateCommand.validateParameters parameters.length with
  | .error e => .error ("invalid REM DATE parameters: " ++ e)
  | .ok _ =>
    match parseString (strJoinSpace parameters) c.Date with
    | .error e => .error ("error parsing REM DATE parameters: " ++ e)
    | .ok v => .ok { c with Date := v }

/-- `(c *CueSheet) parseRem(parameters []string) error`: reading
`parameters[0]` of an empty parameter slice is the source's panic; unknown
sub-commands are silently accepted. -/
def parseRem (c : CueSheet) (parameters : List String) : GoResult CueSheet :=
  match parameters with
  | [] => .crash "runtime error: index out of range [0] with length 0"
  | command :: rest =>
    if goToUpper command = "GENRE" then
      match parseGenre c rest with
      | .error e => .err ("error parsing REM " ++ goQuote command ++ " command: " ++ e)
      | .ok c2 => .ok c2
    else if goToUpper command = "DATE" then
      match parseDate c rest with
      | .error e => .err ("error parsing REM " ++ goQuote command ++ " command: " ++ e)
      | .ok c2 => .ok c2
    else .ok c

/-- The `switch strings.ToUpper(command)` dispatch of `parseLine`;
`none` is the default (unrecognized command) branch. -/
def dispatchHandler (c : CueSheet) (u : String) (parameters : List String) :
    Option (GoResult CueSheet) :=
  if u = FileCommand.Name then some (liftE (parseFile c parameters))
  else if u = PerformerCommand.Name then some (liftE (parsePerformer c parameters))
  else if u = TrackCommand.Name then some (liftE (parseTrack c parameters))
  else if u = TrackIndexCommand.Name then some (parseTrackIndex01 c parameters)
  else if u = TitleCommand.Name then some (liftE (parseTitle c parameters))
  else if u = RemCommand.Name then some (parseRem c parameters)
  else none

/-- `(c *CueSheet) parseLine(line string) error`: reading `fields[0]` of a
line with no fields is the source's panic (no minimum-field check exists in
this revision). -/
def parseLine (c : CueSheet) (line : String) : GoResult CueSheet :=
  match goFields line with
  | [] => .crash "runtime error: index out of range [0] with length 0"
  | command :: parameters =>
    match dispatchHandler c (goToUpper command) parameters with
    | none => .err ("unexpected command: " ++ command)
    | some (.ok c2) => .ok c2
    | some (.err e) => .err ("error parsing " ++ goQuote command ++ " command: " ++ e)
    | some (.crash m) => .crash m

/-- The scan loop of `Parse`: trim each line, skip blank and bare-`REM`
lines (still counting them), and wrap any line error with its 1-based line
number and trimmed text. -/
def processLines : CueSheet → Nat → List String → GoResult CueSheet
  | c, _, [] => .ok c
  | c, n, l :: ls =>
    if goTrim l = "" ∨ goTrim l = "REM" then processLines c (n + 1) ls
    else
      match parseLine c (goTrim l) with
      | .ok c2 => processLines c2 (n + 1) ls
      | .err e => .err ("line " ++ toString n ++ ":\t" ++ goTrim l ++ ":\n\t" ++ e)
      | .crash m => .crash m

/-- Worker of `validateTracks`, carrying the 0-based position for the
overlap message. -/
def validateTracksAux : Nat → List Track → Except String Unit
  | _, [] => .ok ()
  | i, track :: rest =>
    if track.Typ = "" then .error "missing track type"
    else
      match rest with
      | [] => .ok ()
      | nextTrack :: _ =>
        if track.Index01.Timestamp > nextTrack.Index01.Timestamp ∨
            (track.Index01.Timestamp = nextTrack.Index01.Timestamp ∧
              track.Index01.Frame ≥ nextTrack.Index01.Frame) then
          .error ("overlapping indices in tracks " ++ toString (i + 1) ++ " and " ++
            toString (i + 2))
        else validateTracksAux (i + 1) rest

/-- `(c *CueSheet) validateTracks() error`. -/
def validateTracks (c : CueSheet) : Except String Unit :=
  validateTracksAux 0 c.Tracks

/-- `(c *CueSheet) validate() error`. -/
def validate (c : CueSheet) : Except String Unit :=
  if c.FileName = "" then .error "missing file name"
  else if c.Format = "" then .error "missing file format"
  else if c.Tracks.isEmpty then .error "missing tracks"
  else
    match validateTracks c with
    | .error e => .error ("invalid tracks: " ++ e)
    | .ok _ => .ok ()

/-- Scan all lines of the (BOM-stripped) stream body and run the post-parse
validator, wrapping its error. -/
def runLines (body : List Char) : GoResult CueSheet :=
  match processLines initialCueSheet 1 (goLines body) with
  | .ok c =>
    match validate c with
    | .error e => .err ("invalid cue sheet: " ++ e)
    | .ok _ => .ok c
  | .err e => .err e
  | .crash m => .crash m

/-- Discard a single leading UTF-8 byte-order mark (rune 65279, U+FEFF),
if present. -/
def stripBom (l : List Char) : List Char :=
  match l with
  | [] => []
  | c :: rest => if c = '\uFEFF' then rest else c :: rest

/-- `Parse` on a rune sequence: reading the first rune of an empty stream
fails with the wrapped `io.EOF` read error, exactly as the source's
`ReadRune` call does. -/
def parseChars (l : List Char) : GoResult CueSheet :=
  match l with
  | [] => .err "error reading first rune: EOF"
  | _ :: _ => runLines (stripBom l)

/-- `Parse(reader io.Reader) (*CueSheet, error)`. -/
def Parse (s : String) : GoResult CueSheet :=
  parseChars s.data

/-- Default track used for positional access in statements. -/
def defTrack : Track := { Title := "", Typ := "", Index01 := zeroIndexPoint }

/-- The strict ordering the validator requires between the index points of
adjacent tracks: earlier timestamp, or equal timestamps and earlier frame. -/
def indexLt (a b : IndexPoint) : Prop :=
  a.Timestamp < b.Timestamp ∨ (a.Timestamp = b.Timestamp ∧ a.Frame < b.Frame)

/-- A document with one fresh AUDIO track appended and nothing else set. -/
def oneTrackSheet : CueSheet :=
  { initialCueSheet with Tracks := [{ Title := "", Typ := "AUDIO", Index01 := zeroIndexPoint }] }

/-- Whether a `GoResult` is an error return. -/
def GoResult.isErr {α : Type} : GoResult α → Bool
  | .err _ => true
  | _ => false

/-- Boolean list-prefix test. -/
def listIsPrefixB : List Char → List Char → Bool
  | [], _ => true
  | _ :: _, [] => false
  | a :: as, b :: bs => a == b && listIsPrefixB as bs

/-- Boolean list-infix (substring) test. -/
def listInfixB (sub : List Char) : List Char → Bool
  | [] => sub.isEmpty
  | c :: rest => listIsPrefixB sub (c :: rest) || listInfixB sub rest

/-- Whether `sub` occurs as a contiguous substring of `s`. -/
def strContainsB (s sub : String) : Bool :=
  listInfixB sub.data s.data

/-- Whether a result is an error whose message contains `sub`. -/
def errContains (r : GoResult CueSheet) (sub : String) : Bool :=
  match r with
  | .err e => strContainsB e sub
  | _ => false

/-- Whether a raw scanned line dispatches (after trimming and field
splitting) to the FILE handler. -/
def isFileCommandLine (line : String) : Bool :=
  match goFields (goTrim line) with
  | [] => false
  | cmd :: _ => goToUpper cmd == "FILE"

/-! ## Helper lemmas about the embedded parser -/

lemma parseString_err (v f : String) (h : f ≠ "") :
    parseString v f = .error ("field already set: " ++ f) := by
  rw [parseString, assignValue, if_pos h]

lemma parseString_ok (v : String) : parseString v "" = .ok (goTrim v) := by
  rw [parseString, assignValue, if_neg (fun hh => hh rfl)]

lemma validateParameters_exact2_err (cmd : Command) (hE : cmd.ExactParams = 2) (n : Nat)
    (h : n ≠ 2) :
    cmd.validateParameters n = .error ("expected 2 parameters, got " ++ toString n) := by
  unfold Command.validateParameters
  rw [hE]
  rw [if_pos ⟨by norm_num, h⟩]
  rfl

lemma validateParameters_min1_ok (cmd : Command) (hE : cmd.ExactParams = 0)
    (hM : cmd.MinParams = 1) (n : Nat) (h : n ≠ 0) :
    cmd.validateParameters n = .ok () := by
  unfold Command.validateParameters
  rw [hE, hM]
  rw [if_neg (by omega), if_neg (by omega)]

lemma isNextTrack_atoiErr (c : CueSheet) (nr e : String) (hA : goAtoi nr = .error e) :
    isNextTrack c nr = .error ("failed to parse track number: " ++ e) := by
  simp only [isNextTrack, hA]

lemma isNextTrack_mismatch (c : CueSheet) (nr : String) (n : Int)
    (hA : goAtoi nr = .ok n) (hne : n ≠ (c.Tracks.length : Int) + 1) :
    isNextTrack c nr =
      .error ("expected track number " ++ toString ((c.Tracks.length : Int) + 1) ++
        ", got " ++ toString n) := by
  simp only [isNextTrack, hA]
  rw [if_pos hne]

lemma isNextTrack_over (c : CueSheet) (nr : String)
    (hA : goAtoi nr = .ok ((c.Tracks.length : Int) + 1))
    (hgt : (c.Tracks.length : Int) + 1 > 99) :
    isNextTrack c nr = .error "cannot have more than 99 tracks" := by
  simp only [isNextTrack, hA]
  rw [if_neg (fun hh => hh rfl)]
  rw [if_pos (by simpa [maxTracks] using hgt)]
  rfl

lemma isNextTrack_accept (c : CueSheet) (nr : String)
    (hA : goAtoi nr = .ok ((c.Tracks.length : Int) + 1))
    (hle : (c.Tracks.length : Int) + 1 ≤ 99) :
    isNextTrack c nr = .ok () := by
  simp only [isNextTrack, hA]
  rw [if_neg (fun hh => hh rfl)]
  rw [if_neg (by simp only [maxTracks]; omega)]

lemma liftE_ok {x : Except String CueSheet} {c : CueSheet} (h : liftE x = .ok c) :
    x = .ok c := by
  cases x with
  | ok a => simpa [liftE] using h
  | error e => simp [liftE] at h

lemma ne_nil_of_getLast?_eq_some {l : List Track} {t : Track}
    (h : l.getLast? = some t) : l ≠ [] := by
  cases l with
  | nil => simp at h
  | cons a as => simp

lemma length_dropLast_append {l : List Track} (x : Track) (h : l ≠ []) :
    (l.dropLast ++ [x]).length = l.length := by
  have hp : 0 < l.length := List.length_pos.mpr h
  simp [List.length_dropLast]
  omega

lemma parseFile_tracks {c c' : CueSheet} {ps : List String}
    (h : parseFile c ps = .ok c') : c'.Tracks = c.Tracks := by
  unfold parseFile at h
  split at h
  · exact Except.noConfusion h
  · split at h
    · exact Except.noConfusion h
    · split at h
      · exact Except.noConfusion h
      · cases h
        rfl

lemma parsePerformer_tracks {c c' : CueSheet} {ps : List String}
    (h : parsePerformer c ps = .ok c') : c'.Tracks = c.Tracks := by
  unfold parsePerformer at h
  split at h
  · exact Except.noConfusion h
  · split at h
    · exact Except.noConfusion h
    · cases h
      rfl

lemma parseGenre_tracks {c c' : CueSheet} {ps : List String}
    (h : parseGenre c ps = .ok c') : c'.Tracks = c.Tracks := by
  unfold parseGenre at h
  split at h
  · exact Except.noConfusion h
  · split at h
    · exact Except.noConfusion h
    · cases h
      rfl

lemma parseDate_tracks {c c' : CueSheet} {ps : List String}
    (h : parseDate c ps = .ok c') : c'.Tracks = c.Tracks := by
  unfold parseDate at h
  split at h
  · exact Except.noConfusion h
  · split at h
    · exact Except.noConfusion h
    · cases h
      rfl

lemma parseRem_tracks {c c' : CueSheet} {ps : List String}
    (h : parseRem c ps = .ok c') : c'.Tracks = c.Tracks := by
  unfold parseRem at h
  split at h
  · exact GoResult.noConfusion h
  · split at h
    · split at h
      · exact GoResult.noConfusion h
      · cases h
        exact parseGenre_tracks (by assumption)
    · split at h
      · split at h
        · exact GoResult.noConfusion h
        · cases h
          exact parseDate_tracks (by assumption)
      · cases h
        rfl

lemma parseTitle_tracks_len {c c' : CueSheet} {ps : List String}
    (h : parseTitle c ps = .ok c') : c'.Tracks.length = c.Tracks.length := by
  unfold parseTitle at h
  split at h
  · exact Except.noConfusion h
  · split at h
    · split at h
      · exact Except.noConfusion h
      · cases h
        rfl
    · rename_i tr hL
      split at h
      · exact Except.noConfusion h
      · cases h
        exact length_dropLast_append _ (ne_nil_of_getLast?_eq_some hL)

lemma parseTrackIndex01_tracks_len {c c' : CueSheet} {ps : List String}
    (h : parseTrackIndex01 c ps = .ok c') : c'.Tracks.length = c.Tracks.length := by
  unfold parseTrackIndex01 at h
  split at h
  · exact GoResult.noConfusion h
  · split at h
    · exact GoResult.noConfusion h
    · split at h
      · exact GoResult.noConfusion h
      · split at h
        · exact GoResult.noConfusion h
        · split at h
          · exact GoResult.noConfusion h
          · rename_i tr hL
            split at h
            · exact GoResult.noConfusion h
            · cases h
              exact length_dropLast_append _ (ne_nil_of_getLast?_eq_some hL)

lemma isNextTrack_ok_inv {c : CueSheet} {nr : String} {u : Unit}
    (h : isNextTrack c nr = .ok u) :
    goAtoi nr = .ok ((c.Tracks.length : Int) + 1) ∧ c.Tracks.length + 1 ≤ 99 := by
  unfold isNextTrack at h
  split at h
  · exact Except.noConfusion h
  · rename_i n hA
    split at h
    · exact Except.noConfusion h
    · split at h
      · exact Except.noConfusion h
      · rename_i hne hle
        simp only [maxTracks] at hle
        have hn : n = (c.Tracks.length : Int) + 1 := by omega
        subst hn
        exact ⟨hA, by omega⟩

lemma parseTrack_ok_inv {c c' : CueSheet} {ps : List String}
    (h : parseTrack c ps = .ok c') :
    c'.Tracks.length = c.Tracks.length + 1 ∧ c.Tracks.length + 1 ≤ 99 ∧
      goAtoi (ps.getD 0 "") = .ok ((c.Tracks.length : Int) + 1) := by
  unfold parseTrack at h
  split at h
  · exact Except.noConfusion h
  · split at h
    · exact Except.noConfusion h
    · rename_i u hN
      split at h
      · exact Except.noConfusion h
      · cases h
        obtain ⟨hA, hle⟩ := isNextTrack_ok_inv hN
        exact ⟨by simp, hle, hA⟩

lemma parseLine_tracks {c c' : CueSheet} {t : String}
    (h : parseLine c t = .ok c') :
    c'.Tracks.length = c.Tracks.length ∨
      (c'.Tracks.length = c.Tracks.length + 1 ∧ c.Tracks.length + 1 ≤ 99) := by
  unfold parseLine at h
  split at h
  · exact GoResult.noConfusion h
  · rename_i command params
    split at h
    · exact GoResult.noConfusion h
    · rename_i r c2 hD
      cases h
      unfold dispatchHandler at hD
      split_ifs at hD <;> simp only [Option.some.injEq] at hD
      · exact Or.inl (by rw [parseFile_tracks (liftE_ok hD)])
      · exact Or.inl (by rw [parsePerformer_tracks (liftE_ok hD)])
      · exact Or.inr ⟨(parseTrack_ok_inv (liftE_ok hD)).1, (parseTrack_ok_inv (liftE_ok hD)).2.1⟩
      · exact Or.inl (parseTrackIndex01_tracks_len hD)
      · exact Or.inl (parseTitle_tracks_len (liftE_ok hD))
      · exact Or.inl (by rw [parseRem_tracks hD])
    · exact GoResult.noConfusion h
    · exact GoResult.noConfusion h

lemma processLines_tracks_le (ls : List String) :
    ∀ (c : CueSheet) (n : Nat) (c' : CueSheet), processLines c n ls = .ok c' →
      c.Tracks.length ≤ 99 → c'.Tracks.length ≤ 99 := by
  induction ls with
  | nil =>
    intro c n c' h hle
    unfold processLines at h
    cases h
    exact hle
  | cons l ls ih =>
    intro c n c' h hle
    unfold processLines at h
    split at h
    · exact ih c (n + 1) c' h hle
    · split at h
      · rename_i c2 hP
        rcases parseLine_tracks hP with h1 | ⟨h1, h2⟩
        · exact ih c2 (n + 1) c' h (by omega)
        · exact ih c2 (n + 1) c' h (by omega)
      · exact GoResult.noConfusion h
      · exact GoResult.noConfusion h

lemma parsePerformer_fileName {c c' : CueSheet} {ps : List String}
    (h : parsePerformer c ps = .ok c') : c'.FileName = c.FileName := by
  unfold parsePerformer at h
  split at h
  · exact Except.noConfusion h
  · split at h
    · exact Except.noConfusion h
    · cases h
      rfl

lemma parseTrack_fileName {c c' : CueSheet} {ps : List String}
    (h : parseTrack c ps = .ok c') : c'.FileName = c.FileName := by
  unfold parseTrack at h
  split at h
  · exact Except.noConfusion h
  · split at h
    · exact Except.noConfusion h
    · split at h
      · exact Except.noConfusion h
      · cases h
        rfl

lemma parseTrackIndex01_fileName {c c' : CueSheet} {ps : List String}
    (h : parseTrackIndex01 c ps = .ok c') : c'.FileName = c.FileName := by
  unfold parseTrackIndex01 at h
  split at h
  · exact GoResult.noConfusion h
  · split at h
    · exact GoResult.noConfusion h
    · split at h
      · exact GoResult.noConfusion h
      · split at h
        · exact GoResult.noConfusion h
        · split at h
          · exact GoResult.noConfusion h
          · split at h
            · exact GoResult.noConfusion h
            · cases h
              rfl

lemma parseTitle_fileName {c c' : CueSheet} {ps : List String}
    (h : parseTitle c ps = .ok c') : c'.FileName = c.FileName := by
  unfold parseTitle at h
  split at h
  · exact Except.noConfusion h
  · split at h
    · split at h
      · exact Except.noConfusion h
      · cases h
        rfl
    · split at h
      · exact Except.noConfusion h
      · cases h
        rfl

lemma parseGenre_fileName {c c' : CueSheet} {ps : List String}
    (h : parseGenre c ps = .ok c') : c'.FileName = c.FileName := by
  unfold parseGenre at h
  split at h
  · exact Except.noConfusion h
  · split at h
    · exact Except.noConfusion h
    · cases h
      rfl

lemma parseDate_fileName {c c' : CueSheet} {ps : List String}
    (h : parseDate c ps = .ok c') : c'.FileName = c.FileName := by
  unfold parseDate at h
  split at h
  · exact Except.noConfusion h
  · split at h
    · exact Except.noConfusion h
    · cases h
      rfl

lemma parseRem_fileName {c c' : CueSheet} {ps : List String}
    (h : parseRem c ps = .ok c') : c'.FileName = c.FileName := by
  unfold parseRem at h
  split at h
  · exact GoResult.noConfusion h
  · split at h
    · split at h
      · exact GoResult.noConfusion h
      · cases h
        exact parseGenre_fileName (by assumption)
    · split at h
      · split at h
        · exact GoResult.noConfusion h
        · cases h
          exact parseDate_fileName (by assumption)
      · cases h
        rfl

lemma parseLine_fileName {c c' : CueSheet} {t : String}
    (h : parseLine c t = .ok c')
    (hnf : ∀ cmd rest, goFields t = cmd :: rest → goToUpper cmd ≠ "FILE") :
    c'.FileName = c.FileName := by
  unfold parseLine at h
  split at h
  · exact GoResult.noConfusion h
  · rename_i command params hF
    split at h
    · exact GoResult.noConfusion h
    · rename_i r c2 hD
      cases h
      unfold dispatchHandler at hD
      split_ifs at hD with h1 h2 h3 h4 h5 h6 <;> simp only [Option.some.injEq] at hD
      · exact absurd h1 (hnf command params hF)
      · exact parsePerformer_fileName (liftE_ok hD)
      · exact parseTrack_fileName (liftE_ok hD)
      · exact parseTrackIndex01_fileName hD
      · exact parseTitle_fileName (liftE_ok hD)
      · exact parseRem_fileName hD
    · exact GoResult.noConfusion h
    · exact GoResult.noConfusion h

lemma isFileCommandLine_head {l cmd : String} {rest : List String}
    (h : isFileCommandLine l = false) (he : goFields (goTrim l) = cmd :: rest) :
    goToUpper cmd ≠ "FILE" := by
  unfold isFileCommandLine at h
  rw [he] at h
  simpa using h

lemma processLines_fileName (ls : List String) :
    ∀ (c : CueSheet) (n : Nat) (c' : CueSheet), processLines c n ls = .ok c' →
      (∀ l ∈ ls, isFileCommandLine l = false) → c'.FileName = c.FileName := by
  induction ls with
  | nil =>
    intro c n c' h _
    unfold processLines at h
    cases h
    rfl
  | cons l ls ih =>
    intro c n c' h hall
    unfold processLines at h
    split at h
    · exact ih c (n + 1) c' h (fun x hx => hall x (List.mem_cons_of_mem l hx))
    · split at h
      · rename_i c2 hP
        have h2 : c2.FileName = c.FileName := by
          refine parseLine_fileName hP (fun cmd rest he => ?_)
          exact isFileCommandLine_head (hall l (List.mem_cons_self l ls)) he
        rw [ih c2 (n + 1) c' h (fun x hx => hall x (List.mem_cons_of_mem l hx)), h2]
      · exact GoResult.noConfusion h
      · exact GoResult.noConfusion h

lemma indexLt_of_not_overlap {a b : IndexPoint}
    (h : ¬(a.Timestamp > b.Timestamp ∨ (a.Timestamp = b.Timestamp ∧ a.Frame ≥ b.Frame))) :
    indexLt a b := by
  unfold indexLt
  push_neg at h
  omega

lemma validateTracksAux_inv (ts : List Track) :
    ∀ i : Nat, validateTracksAux i ts = .ok () →
      (∀ t ∈ ts, t.Typ ≠ "") ∧
      (∀ j : Nat, j + 1 < ts.length →
        indexLt ((ts.getD j defTrack).Index01) ((ts.getD (j + 1) defTrack).Index01)) := by
  induction ts with
  | nil =>
    intro i _
    constructor
    · intro t ht
      simp at ht
    · intro j hj
      simp at hj
  | cons t rest ih =>
    intro i h
    cases rest with
    | nil =>
      simp only [validateTracksAux] at h
      split at h
      · exact Except.noConfusion h
      · rename_i hT
        constructor
        · intro x hx
          rcases List.mem_cons.mp hx with rfl | hx2
          · exact hT
          · simp at hx2
        · intro j hj
          simp at hj
    | cons nextTrack more =>
      simp only [validateTracksAux] at h
      split at h
      · exact Except.noConfusion h
      · rename_i hT
        split at h
        · exact Except.noConfusion h
        · rename_i hOv
          have hrec := ih (i + 1) h
          constructor
          · intro x hx
            rcases List.mem_cons.mp hx with rfl | hx2
            · exact hT
            · exact hrec.1 x hx2
          · intro j hj
            match j with
            | 0 =>
              simp only [List.getD_cons_zero, List.getD_cons_succ]
              exact indexLt_of_not_overlap hOv
            | Nat.succ j2 =>
              simp only [List.getD_cons_succ]
              have hj2 : j2 + 1 < (nextTrack :: more).length := by
                simp at hj ⊢
                omega
              exact hrec.2 j2 hj2

lemma validate_ok_inv {c : CueSheet} (h : validate c = .ok ()) :
    c.FileName ≠ "" ∧ c.Format ≠ "" ∧ c.Tracks ≠ [] ∧ validateTracks c = .ok () := by
  unfold validate at h
  split_ifs at h with h1 h2 h3
  · refine ⟨h1, h2, ?_, ?_⟩
    · intro hnil
      exact h3 (by simp [hnil])
    · split at h
      · exact Except.noConfusion h
      · assumption

lemma Parse_ok_inv {s : String} {c : CueSheet} (h : Parse s = .ok c) :
    processLines initialCueSheet 1 (goLines (stripBom s.data)) = .ok c ∧
      validate c = .ok () := by
  unfold Parse parseChars at h
  split at h
  · exact GoResult.noConfusion h
  · rename_i hd tl hdata
    unfold runLines at h
    split at h
    · rename_i c1 hPL
      split at h
      · exact GoResult.noConfusion h
      · rename_i hV
        cases h
        exact ⟨hPL, hV⟩
    · exact GoResult.noConfusion h
    · exact GoResult.noConfusion h

lemma digitChar_not_sign (d : Nat) (h : d < 10) :
    ¬(Char.ofNat (48 + d) = '-' ∨ Char.ofNat (48 + d) = '+') := by
  interval_cases d <;> decide

lemma digitChar_isDigit (d : Nat) (h : d < 10) : (Char.ofNat (48 + d)).isDigit = true := by
  interval_cases d <;> decide

lemma charVal_digitChar (d : Nat) (h : d < 10) : charVal (Char.ofNat (48 + d)) = d := by
  interval_cases d <;> decide

lemma scanSignedMax2_two_digits (d1 d2 : Nat) (h1 : d1 < 10) (h2 : d2 < 10)
    (rest : List Char) :
    scanSignedMax2 (Char.ofNat (48 + d1) :: Char.ofNat (48 + d2) :: rest) =
      .ok ((10 * (d1 : Int) + (d2 : Int)), rest) := by
  simp [scanSignedMax2, digitChar_not_sign d1 h1, digitChar_isDigit d1 h1,
    digitChar_isDigit d2 h2, charVal_digitChar d1 h1, charVal_digitChar d2 h2]

/-! ## Concrete documents used by the claim theorems -/

/-- Document produced by parsing a FILE line, one TRACK, and two identical
`INDEX 01 00:00:00` lines. -/
def dupZeroIndexSheet : CueSheet :=
  { AlbumPerformer := "", AlbumTitle := "", Date := "", Format := "WAVE",
    FileName := "a.flac", Genre := "",
    Tracks := [{ Title := "", Typ := "AUDIO", Index01 := { Frame := 0, Timestamp := 0 } }] }

/-- Document produced by parsing a FILE line and a TRACK with no INDEX. -/
def noIndexTrackSheet : CueSheet :=
  { AlbumPerformer := "", AlbumTitle := "", Date := "", Format := "WAVE",
    FileName := "sample.flac", Genre := "",
    Tracks := [{ Title := "", Typ := "AUDIO", Index01 := { Frame := 0, Timestamp := 0 } }] }

/-- Result of `INDEX 01 1:2:3` on a one-track sheet: one-digit fields are
accepted, giving 1 minute 2 seconds, frame 3. -/
def oneDigitScanSheet : CueSheet :=
  { AlbumPerformer := "", AlbumTitle := "", Date := "", Format := "", FileName := "",
    Genre := "",
    Tracks :=
      [{ Title := "", Typ := "AUDIO", Index01 := { Frame := 3, Timestamp := 62000000000 } }] }

/-- A well-formed two-track cue sheet input. -/
def twoTrackInput : String :=
  "FILE a.flac WAVE\nTRACK 01 AUDIO\nINDEX 01 00:01:00\nTRACK 02 AUDIO\nINDEX 01 00:02:00"

/-- The document `twoTrackInput` parses to. -/
def twoTrackSheet : CueSheet :=
  { AlbumPerformer := "", AlbumTitle := "", Date := "", Format := "WAVE",
    FileName := "a.flac", Genre := "",
    Tracks := [{ Title := "", Typ := "AUDIO", Index01 := { Frame := 0, Timestamp := 1000000000 } },
      { Title := "", Typ := "AUDIO", Index01 := { Frame := 0, Timestamp := 2000000000 } }] }

/-- A sheet that already contains the maximum of 99 tracks. -/
def track99Sheet : CueSheet :=
  { initialCueSheet with
    Tracks := List.replicate 99 { Title := "", Typ := "AUDIO", Index01 := zeroIndexPoint } }

/-- A one-track sheet whose track already has a title. -/
def titledTrackSheet : CueSheet :=
  { initialCueSheet with
    Tracks := [{ Title := "Song", Typ := "AUDIO", Index01 := zeroIndexPoint }] }

/-- A one-track sheet whose track already has a non-zero INDEX 01. -/
def indexedTrackSheet : CueSheet :=
  { initialCueSheet with
    Tracks :=
      [{ Title := "", Typ := "AUDIO", Index01 := { Frame := 0, Timestamp := 1000000000 } }] }

/-! ## Claim theorems -/

/-- C1: the claim says Parse returns a document or an error on every input,
with every access into the track list and the parameter token list in
bounds.  The code violates this: an `INDEX` command arriving before any
`TRACK` command makes `parseTrackIndex01` read `c.Tracks[len(c.Tracks)-1]`
of an empty list, a runtime panic, modelled here as a `crash` result. -/
theorem c1_parse_crashes_on_index_before_track :
    Parse "INDEX 01 00:00:00" = GoResult.crash "runtime error: index out of range [-1]" := by
  decide

/-- C2 counterexample: the claim says a second command assigning the same
field always fails, even when the values are equal.  Parsing two identical
`INDEX 01 00:00:00` commands for the same track succeeds, because the
assigned `IndexPoint` equals the zero value, so `assignValue` treats the
field as still unset. -/
theorem c2_duplicate_zero_index_accepted :
    Parse "FILE a.flac WAVE\nTRACK 01 AUDIO\nINDEX 01 00:00:00\nINDEX 01 00:00:00" =
      GoResult.ok dupZeroIndexSheet := by
  decide

/-- C2 (amended): a second command assigning an already-set scalar field
fails with a duplicate-assignment error naming the current value, provided
the value already stored differs from the field's zero value (a non-empty
string, or an `IndexPoint` other than frame 0 / timestamp 0).  This covers
FILE format, FILE name, PERFORMER, album TITLE, per-track TITLE, REM GENRE,
REM DATE, and the per-track INDEX 01 field. -/
theorem c2_set_once_amended :
    (∀ (c : CueSheet) (p q : String), c.Format ≠ "" →
      parseFile c [p, q] =
        .error ("error parsing FILE format: " ++ ("field already set: " ++ c.Format)))
  ∧ (∀ (c : CueSheet) (p q : String), c.Format = "" → c.FileName ≠ "" →
      parseFile c [p, q] =
        .error ("error parsing FILE name: " ++ ("field already set: " ++ c.FileName)))
  ∧ (∀ (c : CueSheet) (ps : List String), ps ≠ [] → c.AlbumPerformer ≠ "" →
      parsePerformer c ps =
        .error ("error parsing PERFORMER parameters: " ++
          ("field already set: " ++ c.AlbumPerformer)))
  ∧ (∀ (c : CueSheet) (ps : List String), ps ≠ [] → c.Tracks = [] → c.AlbumTitle ≠ "" →
      parseTitle c ps =
        .error ("error parsing album TITLE: " ++ ("field already set: " ++ c.AlbumTitle)))
  ∧ (∀ (c : CueSheet) (ps : List String) (tr : Track), ps ≠ [] →
      c.Tracks.getLast? = some tr → tr.Title ≠ "" →
      parseTitle c ps =
        .error ("error parsing track " ++ toString (c.Tracks.length - 1) ++ " TITLE: " ++
          ("field already set: " ++ tr.Title)))
  ∧ (∀ (c : CueSheet) (ps : List String), ps ≠ [] → c.Genre ≠ "" →
      parseGenre c ps =
        .error ("error parsing REM GENRE parameters: " ++ ("field already set: " ++ c.Genre)))
  ∧ (∀ (c : CueSheet) (ps : List String), ps ≠ [] → c.Date ≠ "" →
      parseDate c ps =
        .error ("error parsing REM DATE parameters: " ++ ("field already set: " ++ c.Date)))
  ∧ (∀ (c : CueSheet) (nr ts : String) (tr : Track) (m s f : Int),
      goAtoi nr = .ok 1 → goScanMSF ts = .ok (m, s, f) →
      c.Tracks.getLast? = some tr → tr.Index01 ≠ zeroIndexPoint →
      parseTrackIndex01 c [nr, ts] =
        .err ("field already set: " ++ renderIndexPoint tr.Index01)) := by
  refine ⟨?_, ?_, ?_, ?_, ?_, ?_, ?_, ?_⟩
  · intro c p q h
    simp only [parseFile]
    rw [show FileCommand.validateParameters ([p, q] : List String).length = .ok () from rfl]
    simp only [List.length_cons, List.length_nil, List.getD]
    rw [parseString_err _ _ h]
  · intro c p q h1 h2
    simp only [parseFile]
    rw [show FileCommand.validateParameters ([p, q] : List String).length = .ok () from rfl]
    simp only [List.length_cons, List.length_nil, List.getD]
    rw [show ((0 + 1 + 1 : Nat) - 1) = 1 from rfl]
    rw [h1, parseString_ok]
    rw [parseString_err _ _ h2]
  · intro c ps hp h
    rw [parsePerformer, validateParameters_min1_ok PerformerCommand rfl rfl ps.length
      (fun hl => hp (List.length_eq_zero.mp hl))]
    rw [parseString_err _ _ h]
  · intro c ps hp ht h
    rw [parseTitle, validateParameters_min1_ok TitleCommand rfl rfl ps.length
      (fun hl => hp (List.length_eq_zero.mp hl))]
    rw [ht]
    simp only [List.getLast?_nil]
    rw [parseString_err _ _ h]
  · intro c ps tr hp hL h
    rw [parseTitle, validateParameters_min1_ok TitleCommand rfl rfl ps.length
      (fun hl => hp (List.length_eq_zero.mp hl))]
    rw [hL]
    simp only []
    rw [parseString_err _ _ h]
  · intro c ps hp h
    rw [parseGenre, validateParameters_min1_ok RemGenreCommand rfl rfl ps.length
      (fun hl => hp (List.length_eq_zero.mp hl))]
    rw [parseString_err _ _ h]
  · intro c ps hp h
    rw [parseDate, validateParameters_min1_ok RemDateCommand rfl rfl ps.length
      (fun hl => hp (List.length_eq_zero.mp hl))]
    rw [parseString_err _ _ h]
  · intro c nr ts tr m s f hA hS hL hNe
    simp only [parseTrackIndex01]
    rw [show TrackIndexCommand.validateParameters ([nr, ts] : List String).length = .ok ()
      from rfl]
    simp only [List.getD_cons_zero, List.getD_cons_succ, hA, hS, hL]
    simp [assignValue, hNe]

/-- C2 witness: each clause of the amended set-once theorem exercised at a
concrete already-set state. -/
theorem c2_set_once_amended_witness :
    parseFile { initialCueSheet with Format := "WAVE" } ["a", "b"] =
      .error "error parsing FILE format: field already set: WAVE"
  ∧ parseFile { initialCueSheet with FileName := "x.flac" } ["a", "b"] =
      .error "error parsing FILE name: field already set: x.flac"
  ∧ parsePerformer { initialCueSheet with AlbumPerformer := "P" } ["q"] =
      .error "error parsing PERFORMER parameters: field already set: P"
  ∧ parseTitle { initialCueSheet with AlbumTitle := "T" } ["q"] =
      .error "error parsing album TITLE: field already set: T"
  ∧ parseTitle titledTrackSheet ["q"] =
      .error "error parsing track 0 TITLE: field already set: Song"
  ∧ parseGenre { initialCueSheet with Genre := "Rock" } ["q"] =
      .error "error parsing REM GENRE parameters: field already set: Rock"
  ∧ parseDate { initialCueSheet with Date := "1999" } ["q"] =
      .error "error parsing REM DATE parameters: field already set: 1999"
  ∧ parseTrackIndex01 indexedTrackSheet ["01", "00:02:00"] =
      .err "field already set: {0 1s}" := by
  refine ⟨?_, ?_, ?_, ?_, ?_, ?_, ?_, ?_⟩
  · exact c2_set_once_amended.1 _ "a" "b" (by decide)
  · exact c2_set_once_amended.2.1 _ "a" "b" rfl (by decide)
  · exact c2_set_once_amended.2.2.1 _ ["q"] (by decide) (by decide)
  · exact c2_set_once_amended.2.2.2.1 _ ["q"] (by decide) rfl (by decide)
  · exact c2_set_once_amended.2.2.2.2.1 titledTrackSheet ["q"]
      { Title := "Song", Typ := "AUDIO", Index01 := zeroIndexPoint }
      (by decide) rfl (by decide)
  · exact c2_set_once_amended.2.2.2.2.2.1 _ ["q"] (by decide) (by decide)
  · exact c2_set_once_amended.2.2.2.2.2.2.1 _ ["q"] (by decide) (by decide)
  · exact c2_set_once_amended.2.2.2.2.2.2.2 indexedTrackSheet "01" "00:02:00"
      { Title := "", Typ := "AUDIO", Index01 := { Frame := 0, Timestamp := 1000000000 } }
      0 2 0 rfl rfl rfl (by decide)

/-- C3: with k tracks appended, a TRACK command whose number token is not
an integer fails with the wrapped Atoi error; a parsed number different
from k+1 fails with "expected track number k+1, got n"; a command numbered
exactly k+1 with k+1 > 99 fails with "cannot have more than 99 tracks"
without appending; and a command numbered exactly k+1 with k+1 ≤ 99
appends exactly one fresh track carrying the trimmed type token. -/
theorem c3_track_numbering :
    (∀ (c : CueSheet) (nr typ e : String), goAtoi nr = .error e →
      parseTrack c [nr, typ] =
        .error ("invalid track number: " ++ ("failed to parse track number: " ++ e)))
  ∧ (∀ (c : CueSheet) (nr typ : String) (n : Int),
      goAtoi nr = .ok n → n ≠ (c.Tracks.length : Int) + 1 →
      parseTrack c [nr, typ] =
        .error ("invalid track number: " ++
          ("expected track number " ++ toString ((c.Tracks.length : Int) + 1) ++
            ", got " ++ toString n)))
  ∧ (∀ (c : CueSheet) (nr typ : String),
      goAtoi nr = .ok ((c.Tracks.length : Int) + 1) → (c.Tracks.length : Int) + 1 > 99 →
      parseTrack c [nr, typ] =
        .error ("invalid track number: " ++ "cannot have more than 99 tracks"))
  ∧ (∀ (c : CueSheet) (nr typ : String),
      goAtoi nr = .ok ((c.Tracks.length : Int) + 1) → (c.Tracks.length : Int) + 1 ≤ 99 →
      parseTrack c [nr, typ] =
        .ok { c with
          Tracks := c.Tracks ++ [{ Title := "", Typ := goTrim typ, Index01 := zeroIndexPoint }] }) := by
  refine ⟨?_, ?_, ?_, ?_⟩
  · intro c nr typ e hA
    rw [parseTrack]
    rw [show TrackCommand.validateParameters ([nr, typ] : List String).length = .ok () from rfl]
    simp only [List.getD_cons_zero, List.getD_cons_succ]
    rw [isNextTrack_atoiErr c nr e hA]
  · intro c nr typ n hA hne
    rw [parseTrack]
    rw [show TrackCommand.validateParameters ([nr, typ] : List String).length = .ok () from rfl]
    simp only [List.getD_cons_zero, List.getD_cons_succ]
    rw [isNextTrack_mismatch c nr n hA hne]
  · intro c nr typ hA hgt
    rw [parseTrack]
    rw [show TrackCommand.validateParameters ([nr, typ] : List String).length = .ok () from rfl]
    simp only [List.getD_cons_zero, List.getD_cons_succ]
    rw [isNextTrack_over c nr hA hgt]
  · intro c nr typ hA hle
    rw [parseTrack]
    rw [show TrackCommand.validateParameters ([nr, typ] : List String).length = .ok () from rfl]
    simp only [List.getD_cons_zero, List.getD_cons_succ]
    rw [isNextTrack_accept c nr hA hle]
    rw [parseString_ok]

/-- C3 witness: each sequencing clause exercised on a concrete state. -/
theorem c3_track_numbering_witness :
    parseTrack initialCueSheet ["ab", "AUDIO"] =
      .error "invalid track number: failed to parse track number: strconv.Atoi: parsing \"ab\": invalid syntax"
  ∧ parseTrack initialCueSheet ["5", "AUDIO"] =
      .error "invalid track number: expected track number 1, got 5"
  ∧ parseTrack track99Sheet ["100", "AUDIO"] =
      .error "invalid track number: cannot have more than 99 tracks"
  ∧ parseTrack initialCueSheet ["1", "AUDIO"] =
      .ok { initialCueSheet with
        Tracks := [{ Title := "", Typ := "AUDIO", Index01 := zeroIndexPoint }] } := by
  refine ⟨?_, ?_, ?_, ?_⟩
  · exact c3_track_numbering.1 initialCueSheet "ab" "AUDIO" _ rfl
  · exact c3_track_numbering.2.1 initialCueSheet "5" "AUDIO" 5 rfl (by decide)
  · exact c3_track_numbering.2.2.1 track99Sheet "100" "AUDIO" rfl (by decide)
  · exact c3_track_numbering.2.2.2 initialCueSheet "1" "AUDIO" rfl (by decide)

/-- C4: every document returned successfully by Parse has a non-empty file
name and format, a non-empty track list of at most 99 tracks, a non-empty
type on every track, and strictly increasing index points (timestamp, then
frame) across adjacent tracks; moreover every successful TRACK command
carries exactly the number (current track count) + 1, so the list positions
are the consecutive numbers 1..N of the input commands. -/
theorem c4_document_invariants :
    (∀ (s : String) (c : CueSheet), Parse s = GoResult.ok c →
      c.FileName ≠ "" ∧ c.Format ≠ "" ∧ c.Tracks ≠ [] ∧ c.Tracks.length ≤ 99 ∧
      (∀ t ∈ c.Tracks, t.Typ ≠ "") ∧
      (∀ i : Nat, i + 1 < c.Tracks.length →
        indexLt ((c.Tracks.getD i defTrack).Index01) ((c.Tracks.getD (i + 1) defTrack).Index01)))
  ∧ (∀ (c c2 : CueSheet) (ps : List String), parseTrack c ps = .ok c2 →
      goAtoi (ps.getD 0 "") = .ok ((c.Tracks.length : Int) + 1)) := by
  constructor
  · intro s c h
    obtain ⟨hPL, hV⟩ := Parse_ok_inv h
    obtain ⟨h1, h2, h3, h4⟩ := validate_ok_inv hV
    have hlen : c.Tracks.length ≤ 99 :=
      processLines_tracks_le _ initialCueSheet 1 c hPL (by simp [initialCueSheet])
    have hvt := validateTracksAux_inv c.Tracks 0 h4
    exact ⟨h1, h2, h3, hlen, hvt.1, hvt.2⟩
  · intro c c2 ps h
    exact (parseTrack_ok_inv h).2.2

/-- C4 witness: the invariants observed on the concrete two-track document
and a concrete TRACK command. -/
theorem c4_document_invariants_witness :
    twoTrackSheet.FileName ≠ "" ∧ twoTrackSheet.Tracks.length ≤ 99 ∧
    indexLt ((twoTrackSheet.Tracks.getD 0 defTrack).Index01)
      ((twoTrackSheet.Tracks.getD 1 defTrack).Index01) ∧
    goAtoi "1" = .ok ((initialCueSheet.Tracks.length : Int) + 1) := by
  have h := c4_document_invariants.1 twoTrackInput twoTrackSheet (by decide)
  refine ⟨h.1, h.2.2.2.1, h.2.2.2.2.2 0 (by decide), ?_⟩
  exact c4_document_invariants.2 initialCueSheet
    { initialCueSheet with
      Tracks := [{ Title := "", Typ := "AUDIO", Index01 := zeroIndexPoint }] }
    ["1", "AUDIO"] (c3_track_numbering.2.2.2 initialCueSheet "1" "AUDIO" rfl (by decide))

/-- C5 counterexample: the claim says only tokens of the exact two-digit
form MM:SS:FF are accepted, yet the scanner accepts the one-digit fields of
"1:2:3" (as 1 minute, 2 seconds, frame 3). -/
theorem c5_one_digit_fields_accepted :
    parseTrackIndex01 oneTrackSheet ["01", "1:2:3"] = GoResult.ok oneDigitScanSheet := by
  decide

/-- C5 (amended): every token in strict two-digit MM:SS:FF form scans
successfully, and a successful INDEX 01 stores timestamp
(minutes*60 + seconds) seconds and the frame value unchecked; but the
claim's only-if direction fails: the scanner also accepts one-digit fields,
a sign followed by one digit, and extra characters after the third field,
while rejecting tokens whose fields do not start with a scannable integer
or whose separators mismatch. -/
theorem c5_timestamp_amended :
    (∀ d1 d2 d3 d4 d5 d6 : Nat, d1 < 10 → d2 < 10 → d3 < 10 → d4 < 10 → d5 < 10 → d6 < 10 →
      goScanMSF (String.mk [Char.ofNat (48 + d1), Char.ofNat (48 + d2), ':',
          Char.ofNat (48 + d3), Char.ofNat (48 + d4), ':',
          Char.ofNat (48 + d5), Char.ofNat (48 + d6)]) =
        .ok ((10 * (d1 : Int) + (d2 : Int), 10 * (d3 : Int) + (d4 : Int),
          10 * (d5 : Int) + (d6 : Int))))
  ∧ (∀ (c : CueSheet) (nr tok : String) (m s f : Int) (tr : Track),
      goAtoi nr = .ok 1 → goScanMSF tok = .ok (m, s, f) →
      c.Tracks.getLast? = some tr → tr.Index01 = zeroIndexPoint →
      parseTrackIndex01 c [nr, tok] =
        .ok { c with Tracks := c.Tracks.dropLast ++
          [{ tr with Index01 := { Frame := f, Timestamp := (m * 60 + s) * 1000000000 } }] })
  ∧ goScanMSF "1:2:3" = .ok (1, 2, 3)
  ∧ goScanMSF "-1:00:00" = .ok (-1, 0, 0)
  ∧ goScanMSF "12:34:567" = .ok (12, 34, 56)
  ∧ goScanMSF "ab:00:00" = .error "expected integer"
  ∧ goScanMSF "12-34-56" = .error "input does not match format" := by
  refine ⟨?_, ?_, rfl, rfl, rfl, rfl, rfl⟩
  · intro d1 d2 d3 d4 d5 d6 h1 h2 h3 h4 h5 h6
    unfold goScanMSF
    rw [show (String.mk [Char.ofNat (48 + d1), Char.ofNat (48 + d2), ':',
        Char.ofNat (48 + d3), Char.ofNat (48 + d4), ':',
        Char.ofNat (48 + d5), Char.ofNat (48 + d6)]).data =
        Char.ofNat (48 + d1) :: Char.ofNat (48 + d2) :: ':' ::
        Char.ofNat (48 + d3) :: Char.ofNat (48 + d4) :: ':' ::
        Char.ofNat (48 + d5) :: Char.ofNat (48 + d6) :: [] from rfl]
    rw [scanSignedMax2_two_digits d1 d2 h1 h2]
    simp only [expectColon, eq_self_iff_true, if_true]
    rw [scanSignedMax2_two_digits d3 d4 h3 h4]
    simp only [expectColon, eq_self_iff_true, if_true]
    rw [scanSignedMax2_two_digits d5 d6 h5 h6]
  · intro c nr tok m s f tr hA hS hL hz
    simp only [parseTrackIndex01]
    rw [show TrackIndexCommand.validateParameters ([nr, tok] : List String).length = .ok ()
      from rfl]
    simp only [List.getD_cons_zero, List.getD_cons_succ, hA, hS, hL]
    simp only [assignValue, hz]
    rw [if_neg (fun hh => hh rfl)]
    have harith : m * 60000000000 + s * 1000000000 = (m * 60 + s) * 1000000000 := by ring
    simp [harith]

/-- C5 witness: the strict form "00:01:00" scans to (0, 1, 0), and a
concrete INDEX 01 assignment stores 2 seconds and frame 0. -/
theorem c5_timestamp_amended_witness :
    goScanMSF "00:01:00" = .ok (0, 1, 0)
  ∧ parseTrackIndex01 oneTrackSheet ["1", "00:02:00"] =
      .ok { initialCueSheet with
        Tracks :=
          [{ Title := "", Typ := "AUDIO",
             Index01 := { Frame := 0, Timestamp := 2000000000 } }] } := by
  constructor
  · exact c5_timestamp_amended.1 0 0 0 1 0 0 (by decide) (by decide) (by decide) (by decide)
      (by decide) (by decide)
  · exact c5_timestamp_amended.2.1 oneTrackSheet "1" "00:02:00" 0 2 0
      { Title := "", Typ := "AUDIO", Index01 := zeroIndexPoint } rfl rfl rfl rfl

/-- C6 counterexample: a BOM-prefixed stream does not always parse like
the bare stream.  The empty stream fails at the first-rune read while a
lone BOM reaches validation, and when the stream itself starts with a BOM
only one of the two marks is stripped. -/
theorem c6_bom_not_transparent :
    Parse "\uFEFF" ≠ Parse "" ∧
    Parse "\uFEFF\uFEFFFILE a.flac WAVE\nTRACK 01 AUDIO" ≠
      Parse "\uFEFFFILE a.flac WAVE\nTRACK 01 AUDIO" := by
  exact ⟨by decide, by decide⟩

/-- C6 (amended): for every non-empty stream S that does not itself begin
with a byte-order mark, parsing BOM ++ S gives exactly the same result as
parsing S; the excluded cases differ (empty S gives a first-rune read
error versus a missing-file-name validation error, and a BOM-initial S
keeps its second mark, corrupting the first command token). -/
theorem c6_bom_amended (s : String) (hne : s.data ≠ [])
    (hB : s.data.head? ≠ some '\uFEFF') :
    Parse ("\uFEFF" ++ s) = Parse s := by
  unfold Parse parseChars
  rw [show ("\uFEFF" ++ s).data = '\uFEFF' :: s.data from by
    rw [String.data_append]
    rfl]
  cases hd : s.data with
  | nil => exact absurd hd hne
  | cons x xs =>
    simp only [stripBom, eq_self_iff_true, if_true]
    rw [hd] at hB
    have hx : x ≠ '\uFEFF' := by
      intro hxx
      exact hB (by rw [hxx]; rfl)
    rw [if_neg hx]

/-- C6 witness: BOM-prefixing the concrete two-track input parses to the
same result as the input itself. -/
theorem c6_bom_amended_witness :
    Parse ("\uFEFF" ++ twoTrackInput) = Parse twoTrackInput :=
  c6_bom_amended twoTrackInput (by decide) (by decide)

/-- C7 counterexample: on the empty stream Parse fails with the first-rune
read error, whose message does not contain "missing file name". -/
theorem c7_empty_stream_error :
    Parse "" = GoResult.err "error reading first rune: EOF" ∧
    errContains (Parse "") "missing file name" = false := by
  exact ⟨by decide, by decide⟩

/-- C7 (amended): for every non-empty stream whose lines are all processed
without a line error and none of whose lines dispatches to the FILE
handler, Parse fails with exactly "invalid cue sheet: missing file name";
the empty stream instead fails with the first-rune read error. -/
theorem c7_missing_file_amended (s : String) (c : CueSheet) (hne : s.data ≠ [])
    (hPL : processLines initialCueSheet 1 (goLines (stripBom s.data)) = GoResult.ok c)
    (hnf : ∀ l ∈ goLines (stripBom s.data), isFileCommandLine l = false) :
    Parse s = GoResult.err "invalid cue sheet: missing file name" := by
  have hFN : c.FileName = "" := by
    rw [processLines_fileName _ initialCueSheet 1 c hPL hnf]
    rfl
  have hval : validate c = .error "missing file name" := by
    unfold validate
    rw [if_pos hFN]
  unfold Parse parseChars
  split
  · rename_i hd
    exact absurd hd hne
  · unfold runLines
    simp only [hPL, hval]
    rfl

/-- C7 witness: a stream with only a TITLE line fails with the
missing-file-name validation error. -/
theorem c7_missing_file_amended_witness :
    Parse "TITLE hello" = GoResult.err "invalid cue sheet: missing file name" :=
  c7_missing_file_amended "TITLE hello" { initialCueSheet with AlbumTitle := "hello" }
    (by decide) (by decide) (by decide)

/-- C8 counterexample: the claim says a TRACK with no subsequent INDEX 01
line is rejected by the validator, yet a FILE line plus a single TRACK with
no INDEX parses successfully, its track keeping the zero index point. -/
theorem c8_track_without_index_accepted :
    Parse "FILE sample.flac WAVE\nTRACK 01 AUDIO" = GoResult.ok noIndexTrackSheet := by
  decide

/-- C8 (amended): the validator does not record whether INDEX 01 was ever
assigned, so a returned document may contain tracks whose index point is
still the zero value; what the strict ordering check does guarantee is that
no two adjacent tracks of a returned document both carry the zero index
point. -/
theorem c8_no_adjacent_unset_indices (s : String) (c : CueSheet) (i : Nat)
    (h : Parse s = GoResult.ok c) (hi : i + 1 < c.Tracks.length) :
    ¬((c.Tracks.getD i defTrack).Index01 = zeroIndexPoint ∧
      (c.Tracks.getD (i + 1) defTrack).Index01 = zeroIndexPoint) := by
  rintro ⟨hz1, hz2⟩
  obtain ⟨hPL, hV⟩ := Parse_ok_inv h
  obtain ⟨_, _, _, h4⟩ := validate_ok_inv hV
  have hvt := (validateTracksAux_inv c.Tracks 0 h4).2 i hi
  rw [hz1, hz2] at hvt
  unfold indexLt zeroIndexPoint at hvt
  simp at hvt

/-- C8 witness: the two tracks of the concrete two-track document do not
both carry the zero index point. -/
theorem c8_no_adjacent_unset_indices_witness :
    ¬((twoTrackSheet.Tracks.getD 0 defTrack).Index01 = zeroIndexPoint ∧
      (twoTrackSheet.Tracks.getD 1 defTrack).Index01 = zeroIndexPoint) :=
  c8_no_adjacent_unset_indices twoTrackInput twoTrackSheet 0 (by decide) (by decide)

/-- C9: the claim says a bare REM line in any letter case is ignored, but
only the exact upper-case "REM" is skipped by the scan loop; a lowercase
"rem" line dispatches to the REM handler, which reads parameters[0] of an
empty slice and panics (modelled as a crash result). -/
theorem c9_bare_rem_lowercase_crashes :
    Parse "rem" = GoResult.crash "runtime error: index out of range [0] with length 0" := by
  decide

/-- C10: every recognized command enforces its arity with an error naming
expected and actual counts: FILE, TRACK and INDEX require exactly 2
parameters (any other count, below or above, fails), while PERFORMER,
TITLE, REM GENRE and REM DATE require at least 1 (zero parameters fail). -/
theorem c10_arity_enforcement :
    (∀ (c : CueSheet) (ps : List String), ps.length ≠ 2 →
      parseFile c ps =
        .error ("invalid FILE parameters: expected 2 parameters, got " ++ toString ps.length))
  ∧ (∀ (c : CueSheet) (ps : List String), ps.length ≠ 2 →
      parseTrack c ps =
        .error ("invalid TRACK parameters: expected 2 parameters, got " ++ toString ps.length))
  ∧ (∀ (c : CueSheet) (ps : List String), ps.length ≠ 2 →
      parseTrackIndex01 c ps =
        .err ("invalid TRACK INDEX parameters: expected 2 parameters, got " ++
          toString ps.length))
  ∧ (∀ c : CueSheet,
      parsePerformer c [] =
        .error "invalid PERFORMER parameters: expected at least 1 parameters, got 0")
  ∧ (∀ c : CueSheet,
      parseTitle c [] = .error "invalid TITLE parameters: expected at least 1 parameters, got 0")
  ∧ (∀ (c : CueSheet) (sub : String), goToUpper sub = "GENRE" →
      parseRem c [sub] =
        .err ("error parsing REM " ++ goQuote sub ++ " command: " ++
          "invalid REM GENRE parameters: expected at least 1 parameters, got 0"))
  ∧ (∀ (c : CueSheet) (sub : String), goToUpper sub = "DATE" →
      parseRem c [sub] =
        .err ("error parsing REM " ++ goQuote sub ++ " command: " ++
          "invalid REM DATE parameters: expected at least 1 parameters, got 0")) := by
  refine ⟨?_, ?_, ?_, ?_, ?_, ?_, ?_⟩
  · intro c ps h
    rw [parseFile, validateParameters_exact2_err FileCommand rfl ps.length h]
    rfl
  · intro c ps h
    rw [parseTrack, validateParameters_exact2_err TrackCommand rfl ps.length h]
    rfl
  · intro c ps h
    rw [parseTrackIndex01, validateParameters_exact2_err TrackIndexCommand rfl ps.length h]
    rfl
  · intro c
    rfl
  · intro c
    rfl
  · intro c sub h
    rw [parseRem]
    simp only [h]
    rw [if_pos trivial]
    have hg : parseGenre c [] =
        .error "invalid REM GENRE parameters: expected at least 1 parameters, got 0" := rfl
    rw [hg]
  · intro c sub h
    have hd : parseDate c [] =
        .error "invalid REM DATE parameters: expected at least 1 parameters, got 0" := rfl
    rw [parseRem]
    simp only [h, hd]
    rfl

/-- C10 witness: each arity clause exercised on a concrete parameter
list. -/
theorem c10_arity_enforcement_witness :
    parseFile initialCueSheet ["a"] =
      .error "invalid FILE parameters: expected 2 parameters, got 1"
  ∧ parseTrack initialCueSheet ["01", "AUDIO", "X"] =
      .error "invalid TRACK parameters: expected 2 parameters, got 3"
  ∧ parseTrackIndex01 initialCueSheet [] =
      .err "invalid TRACK INDEX parameters: expected 2 parameters, got 0"
  ∧ parsePerformer initialCueSheet [] =
      .error "invalid PERFORMER parameters: expected at least 1 parameters, got 0"
  ∧ parseTitle initialCueSheet [] =
      .error "invalid TITLE parameters: expected at least 1 parameters, got 0"
  ∧ parseRem initialCueSheet ["GENRE"] =
      .err "error parsing REM \"GENRE\" command: invalid REM GENRE parameters: expected at least 1 parameters, got 0"
  ∧ parseRem initialCueSheet ["date"] =
      .err "error parsing REM \"date\" command: invalid REM DATE parameters: expected at least 1 parameters, got 0" := by
  refine ⟨?_, ?_, ?_, ?_, ?_, ?_, ?_⟩
  · exact c10_arity_enforcement.1 initialCueSheet ["a"] (by decide)
  · exact c10_arity_enforcement.2.1 initialCueSheet ["01", "AUDIO", "X"] (by decide)
  · exact c10_arity_enforcement.2.2.1 initialCueSheet [] (by decide)
  · exact c10_arity_enforcement.2.2.2.1 initialCueSheet
  · exact c10_arity_enforcement.2.2.2.2.1 initialCueSheet
  · exact c10_arity_enforcement.2.2.2.2.2.1 initialCueSheet "GENRE" rfl
  · exact c10_arity_enforcement.2.2.2.2.2.2 initialCueSheet "date" rfl

end cuesheetgo
